import Mathlib

/-!
Verification of `gkb_cpu_monitor.py`: a daemon that maps CPU load to a
keyboard backlight color and blinks a configured pattern on desktop
notifications.  The definitions below are a shallow embedding of the
script's functions; Python floats are modelled by `ℚ`, Python ints by `ℤ`,
and Python's `int()` conversion by `pyint` (truncation toward zero).
-/

/-- Embeds `limit(min_thr, max_thr, number)`: `max(min(number, max_thr), min_thr)`. -/
def limit {α : Type*} [LinearOrder α] (min_thr max_thr number : α) : α :=
  max (min number max_thr) min_thr

/-- Python's `int()` applied to a rational: truncation toward zero
(floor for non-negative values, ceiling for negative ones). -/
def pyint (q : ℚ) : ℤ :=
  if q < 0 then -⌊-q⌋ else ⌊q⌋

/-- Embeds `get_load_color(percentage)`: divide by 100, build
`[2*p, 2*(1-p), 0]`, clamp each entry to `[0,1]` and scale to `0-255`
with `int()` truncation. -/
def get_load_color (percentage : ℚ) : List ℤ :=
  let p := percentage / 100
  let rgb : List ℚ := [2 * p, 2 * (1 - p), 0]
  rgb.map (fun x => pyint (limit 0 1 x * 255))

lemma pyint_eq_floor (q : ℚ) (h : 0 ≤ q) : pyint q = ⌊q⌋ := by
  rw [pyint, if_neg (not_lt.2 h)]

lemma pyint_mono {a b : ℚ} (ha : 0 ≤ a) (hab : a ≤ b) : pyint a ≤ pyint b := by
  rw [pyint_eq_floor a ha, pyint_eq_floor b (ha.trans hab)]
  exact Int.floor_mono hab

lemma limit01_nonneg (x : ℚ) : 0 ≤ limit 0 1 x :=
  le_max_right _ _

lemma limit01_mono {x y : ℚ} (h : x ≤ y) : limit 0 1 x ≤ limit 0 1 y :=
  max_le_max (min_le_min h le_rfl) le_rfl

lemma pyint_limit_eval (x : ℚ) (n : ℤ) (h : ⌊limit 0 1 x * 255⌋ = n) :
    pyint (limit 0 1 x * 255) = n := by
  rw [pyint_eq_floor _ (mul_nonneg (limit01_nonneg x) (by norm_num))]
  exact h

lemma get_load_color_eq (x : ℚ) :
    get_load_color x =
      [pyint (limit 0 1 (2 * (x / 100)) * 255),
       pyint (limit 0 1 (2 * (1 - x / 100)) * 255),
       pyint (limit 0 1 0 * 255)] := by
  simp [get_load_color]

/-- C3: the load-to-color mapper sends 0% to pure green `(0,255,0)`, 50% to
pure yellow `(255,255,0)` (both channels saturate at the midpoint), and any
percentage at or above 100 to pure red `(255,0,0)`. -/
theorem get_load_color_endpoints :
    get_load_color 0 = [0, 255, 0] ∧ get_load_color 50 = [255, 255, 0] ∧
      ∀ p : ℚ, 100 ≤ p → get_load_color p = [255, 0, 0] := by
  have hzero : pyint (limit 0 1 (0 : ℚ) * 255) = 0 :=
    pyint_limit_eval _ _ (by norm_num [limit, min_def, max_def])
  refine ⟨?_, ?_, ?_⟩
  · rw [get_load_color_eq,
      pyint_limit_eval (2 * ((0:ℚ) / 100)) 0 (by norm_num [limit, min_def, max_def]),
      pyint_limit_eval (2 * (1 - (0:ℚ) / 100)) 255 (by norm_num [limit, min_def, max_def]),
      hzero]
  · rw [get_load_color_eq,
      pyint_limit_eval (2 * ((50:ℚ) / 100)) 255 (by norm_num [limit, min_def, max_def]),
      pyint_limit_eval (2 * (1 - (50:ℚ) / 100)) 255 (by norm_num [limit, min_def, max_def]),
      hzero]
  · intro p hp
    have hdiv : (1 : ℚ) ≤ p / 100 := by
      rw [le_div_iff₀ (by norm_num : (0:ℚ) < 100)]
      linarith
    have h1 : limit 0 1 (2 * (p / 100)) = 1 := by
      have hge : (1 : ℚ) ≤ 2 * (p / 100) := by linarith
      simp [limit, min_eq_right hge]
    have h2 : limit 0 1 (2 * (1 - p / 100)) = 0 := by
      have hle : 2 * (1 - p / 100) ≤ 0 := by linarith
      simp [limit, min_eq_left (hle.trans (by norm_num : (0:ℚ) ≤ 1)), max_eq_right hle]
    have ha : pyint ((1:ℚ) * 255) = 255 := by
      rw [pyint_eq_floor _ (by norm_num)]
      norm_num
    have hb : pyint ((0:ℚ) * 255) = 0 := by
      rw [pyint_eq_floor _ (by norm_num)]
      norm_num
    rw [get_load_color_eq, h1, h2, hzero, ha, hb]

/-- C3 witness: the `100 ≤ p` case evaluated at `p = 150`. -/
theorem get_load_color_endpoints_witness :
    (100 : ℚ) ≤ 150 ∧ get_load_color 150 = [255, 0, 0] :=
  ⟨by norm_num, get_load_color_endpoints.2.2 150 (by norm_num)⟩

/-- C8: for `0 ≤ p ≤ q ≤ 100` the mapped colors have blue channel 0, the
red channel is non-decreasing and the green channel is non-increasing. -/
theorem get_load_color_monotone (p q : ℚ) (h0 : 0 ≤ p) (hpq : p ≤ q) (h100 : q ≤ 100) :
    ∃ r1 g1 r2 g2,
      get_load_color p = [r1, g1, 0] ∧ get_load_color q = [r2, g2, 0] ∧
        r1 ≤ r2 ∧ g2 ≤ g1 := by
  have hzero : pyint (limit 0 1 (0 : ℚ) * 255) = 0 :=
    pyint_limit_eval _ _ (by norm_num [limit, min_def, max_def])
  refine ⟨pyint (limit 0 1 (2 * (p / 100)) * 255),
    pyint (limit 0 1 (2 * (1 - p / 100)) * 255),
    pyint (limit 0 1 (2 * (q / 100)) * 255),
    pyint (limit 0 1 (2 * (1 - q / 100)) * 255), ?_, ?_, ?_, ?_⟩
  · rw [get_load_color_eq, hzero]
  · rw [get_load_color_eq, hzero]
  · refine pyint_mono (mul_nonneg (limit01_nonneg _) (by norm_num)) ?_
    refine mul_le_mul_of_nonneg_right (limit01_mono ?_) (by norm_num)
    have : p / 100 ≤ q / 100 := by gcongr
    linarith
  · refine pyint_mono (mul_nonneg (limit01_nonneg _) (by norm_num)) ?_
    refine mul_le_mul_of_nonneg_right (limit01_mono ?_) (by norm_num)
    have : p / 100 ≤ q / 100 := by gcongr
    linarith

/-- C8 witness: monotonicity instantiated at `p = 30`, `q = 60`. -/
theorem get_load_color_monotone_witness :
    (get_load_color 30)[2]? = some 0 ∧ (get_load_color 60)[2]? = some 0 := by
  obtain ⟨r1, g1, r2, g2, h1, h2, -, -⟩ :=
    get_load_color_monotone 30 60 (by norm_num) (by norm_num) (by norm_num)
  rw [h1, h2]
  simp

/-- Embeds `int_to_hexstring(dec)`: hex digits of `dec` (lowercase, no
leading zeros, as Python's `hex()` after stripping `0x`), left-padded with
`'0'` to an even number of characters, then uppercased character by
character (Python's `str.upper`). -/
def int_to_hexstring (dec : ℕ) : String :=
  let out := String.mk (Nat.toDigits 16 dec)
  let out := if out.length % 2 ≠ 0 then "0" ++ out else out
  String.mk (out.toList.map Char.toUpper)

/-- Embeds the `color_string` accumulation in `set_keyboard_color`: for each
channel, append `int_to_hexstring(limit(0, 255, color))`.  The result is the
single argument passed to the `g810-led -a` device command. -/
def set_keyboard_color_string (rgb : List ℤ) : String :=
  rgb.foldl (fun color_string color => color_string ++ int_to_hexstring (limit 0 255 color).toNat) ""

/-- Value of an uppercase hexadecimal digit (index in `0-9A-F`). -/
def hexCharVal (c : Char) : ℕ :=
  ("0123456789ABCDEF".toList).findIdx (fun x => x = c)

/-- Value encoded by a big-endian uppercase hexadecimal string. -/
def hexStringVal (s : String) : ℕ :=
  s.toList.foldl (fun a c => 16 * a + hexCharVal c) 0

/-- Whether a character is an uppercase hexadecimal digit. -/
def isUpperHexDigit (c : Char) : Bool :=
  ("0123456789ABCDEF".toList).contains c

set_option maxHeartbeats 4000000 in
set_option maxRecDepth 100000 in
lemma int_to_hexstring_ok : ∀ n : ℕ, n ≤ 255 →
    (int_to_hexstring n).length = 2 ∧
    (∀ c ∈ (int_to_hexstring n).toList, isUpperHexDigit c = true) ∧
    hexStringVal (int_to_hexstring n) = n := by decide

lemma limit_toNat_le_255 (c : ℤ) : (limit 0 255 c).toNat ≤ 255 := by
  have h : limit 0 255 c ≤ 255 := max_le (min_le_right _ _) (by norm_num)
  omega

/-- C4 counterexample: the device command string for the color `(0,0,0)` has
6 hexadecimal characters, not 8 as the claim states. -/
theorem set_keyboard_color_string_length_not_8 :
    (set_keyboard_color_string [0, 0, 0]).length = 6 ∧
      (set_keyboard_color_string [0, 0, 0]).length ≠ 8 := by decide

/-- C4 (amended to 6 characters): for every integer RGB triple, the string
passed to the device driver is the concatenation of the three channel
encodings; it has 6 uppercase hexadecimal characters, and each channel
encoding is the 2-digit zero-padded hexadecimal value of the channel
clamped to `[0, 255]`. -/
theorem set_keyboard_color_string_encoding (r g b : ℤ) :
    set_keyboard_color_string [r, g, b] =
      int_to_hexstring (limit 0 255 r).toNat ++ int_to_hexstring (limit 0 255 g).toNat ++
        int_to_hexstring (limit 0 255 b).toNat ∧
    (set_keyboard_color_string [r, g, b]).length = 6 ∧
    (∀ c ∈ (set_keyboard_color_string [r, g, b]).toList, isUpperHexDigit c = true) ∧
    hexStringVal (int_to_hexstring (limit 0 255 r).toNat) = (limit 0 255 r).toNat ∧
    hexStringVal (int_to_hexstring (limit 0 255 g).toNat) = (limit 0 255 g).toNat ∧
    hexStringVal (int_to_hexstring (limit 0 255 b).toNat) = (limit 0 255 b).toNat := by
  obtain ⟨hr1, hr2, hr3⟩ := int_to_hexstring_ok _ (limit_toNat_le_255 r)
  obtain ⟨hg1, hg2, hg3⟩ := int_to_hexstring_ok _ (limit_toNat_le_255 g)
  obtain ⟨hb1, hb2, hb3⟩ := int_to_hexstring_ok _ (limit_toNat_le_255 b)
  have hcat : set_keyboard_color_string [r, g, b] =
      int_to_hexstring (limit 0 255 r).toNat ++ int_to_hexstring (limit 0 255 g).toNat ++
        int_to_hexstring (limit 0 255 b).toNat := rfl
  refine ⟨hcat, ?_, ?_, hr3, hg3, hb3⟩
  · rw [hcat]
    simp [String.length_append, hr1, hg1, hb1]
  · intro c hc
    rw [hcat] at hc
    have hc' : c ∈ (int_to_hexstring (limit 0 255 r).toNat).toList ∨
        c ∈ (int_to_hexstring (limit 0 255 g).toNat).toList ∨
        c ∈ (int_to_hexstring (limit 0 255 b).toNat).toList := by
      simpa [String.toList, List.mem_append, or_assoc] using hc
    rcases hc' with h | h | h
    · exact hr2 c h
    · exact hg2 c h
    · exact hb2 c h

/-- C4 witness: the amended encoding theorem applied to the triple
`(0, 190, 255)`; the middle channel round-trips through the hex encoding. -/
theorem set_keyboard_color_string_encoding_witness :
    hexStringVal (int_to_hexstring (limit 0 255 (190:ℤ)).toNat) = (limit 0 255 (190:ℤ)).toNat :=
  (set_keyboard_color_string_encoding 0 190 255).2.2.2.2.1

/-- Outcome of running the `g810-led` subprocess in `set_keyboard_color`:
success, `FileNotFoundError` (binary missing), or any other failure of the
command (device rejected/errored). -/
inductive DeviceOutcome where
  | ok
  | commandFailed
  | notFound
deriving DecidableEq

/-- Embeds the `try/except` of `set_keyboard_color`: `FileNotFoundError`
always exits the process; any other command failure exits unless
`ignore_errors` is truthy. -/
def set_keyboard_color_exits (ignore_errors : Bool) (outcome : DeviceOutcome) : Bool :=
  match outcome with
  | DeviceOutcome.ok => false
  | DeviceOutcome.notFound => true
  | DeviceOutcome.commandFailed => !ignore_errors

/-- Observable actions of the main loop: a display command (with the
`ignore_errors` flag it was issued under) or a `time.sleep`. -/
inductive Event where
  | display (rgb : List ℤ) (ignore_errors : Bool)
  | sleep (seconds : ℚ)
deriving DecidableEq

/-- Embeds `notification_blink(color1, color2, count, interval)`: `count`
iterations, each issuing `color1`, sleeping, issuing `color2`, sleeping.
Both `set_keyboard_color` calls use the default `ignore_errors = 0`. -/
def notification_blink (color1 color2 : List ℤ) (count : ℕ) (interval : ℚ) : List Event :=
  match count with
  | 0 => []
  | Nat.succ k =>
      [Event.display color1 false, Event.sleep interval,
       Event.display color2 false, Event.sleep interval] ++
        notification_blink color1 color2 k interval

/-- Colors of the display commands of a trace, in order. -/
def displayedColors (evs : List Event) : List (List ℤ) :=
  evs.filterMap (fun e => match e with
    | Event.display c _ => some c
    | Event.sleep _ => none)

/-- Embeds `notification_event(bus, message)`: overwrite the global
`NOTIFY` with the first positional argument of the message, regardless of
the previous value. -/
def notification_event (message_args : List String) (h : message_args ≠ [])
    (NOTIFY : String) : String :=
  message_args.head h

/-- A parsed notification setting record (§ Data model); the four fields
of the XML records. -/
structure NotificationSetting where
  name : String
  color : List ℤ
  count : ℕ
  interval : ℚ
deriving DecidableEq

/-- `SAMPLING = 0.2`: CPU load calculation interval. -/
def SAMPLING : ℚ := 0.2

/-- `SAMPLES = 25`: CPU load cache size. -/
def SAMPLES : ℕ := 25

/-- The mutable state of the main loop: the `NOTIFY` global, the load
cache with its cursor, and `meter_color`, which in Python is an undefined
name until the first monitoring iteration assigns it (modelled as an
`Option` that starts out `none`). -/
structure LoopState where
  NOTIFY : String
  cpu_load_cache : List ℤ
  current_sampling : ℕ
  meter_color : Option (List ℤ)
deriving DecidableEq

/-- Embeds the cache-update lines of the monitoring branch: overwrite the
slot at `current_sampling`, advance the cursor, wrap to 0 at the end. -/
def record (cpu_load_cache : List ℤ) (current_sampling : ℕ) (sample : ℤ) : List ℤ × ℕ :=
  let cache := cpu_load_cache.set current_sampling sample
  let cursor := current_sampling + 1
  (cache, if cursor ≥ cache.length then 0 else cursor)

/-- Embeds `cpu_load = sum(cpu_load_cache) / len(cpu_load_cache)`. -/
def cpu_load_avg (cpu_load_cache : List ℤ) : ℚ :=
  (cpu_load_cache.sum : ℚ) / (cpu_load_cache.length : ℚ)

/-- Setup lines of `__main__`: empty `NOTIFY`, cache pre-filled with 50,
cursor 0, `meter_color` not yet assigned. -/
def initState : LoopState :=
  ⟨"", List.replicate SAMPLES 50, 0, none⟩

/-- One iteration of the main `while True` loop.  `sample` is the value of
`int(psutil.cpu_percent())` for this tick.  Returns the trace of display
and sleep actions plus the successor state, or an error when Python would
raise (reading the undefined `meter_color`). -/
def tick (persistent : Bool) (notification_settings_list : List NotificationSetting)
    (st : LoopState) (sample : ℤ) : Except String (List Event × LoopState) :=
  if st.NOTIFY = "" then
    let rc := record st.cpu_load_cache st.current_sampling sample
    let cpu_load := cpu_load_avg rc.1
    let meter_color := get_load_color cpu_load
    Except.ok ([Event.display meter_color persistent, Event.sleep SAMPLING],
      ⟨"", rc.1, rc.2, some meter_color⟩)
  else
    match notification_settings_list.find? (fun n => st.NOTIFY == n.name) with
    | some n =>
        match st.meter_color with
        | some mc =>
            Except.ok (notification_blink n.color mc n.count n.interval,
              ⟨"", st.cpu_load_cache, st.current_sampling, st.meter_color⟩)
        | none => Except.error "NameError: name meter_color is not defined"
    | none => Except.ok ([], ⟨"", st.cpu_load_cache, st.current_sampling, st.meter_color⟩)

/-- Events of a successful tick (empty trace for the crashing case). -/
def ticked_events (r : Except String (List Event × LoopState)) : List Event :=
  match r with
  | Except.ok (evs, _) => evs
  | Except.error _ => []

/-- The XML example's first record: `Telegram Desktop`, color `(0,190,255)`,
2 repetitions, 0.3 s half-cycle. -/
def telegramSetting : NotificationSetting :=
  ⟨"Telegram Desktop", [0, 190, 255], 2, 0.3⟩

lemma displayedColors_blink_succ (c1 c2 : List ℤ) (i : ℚ) (k : ℕ) :
    displayedColors (notification_blink c1 c2 (k + 1) i) =
      c1 :: c2 :: displayedColors (notification_blink c1 c2 k i) := by
  simp [notification_blink, displayedColors]

lemma blink_disp_len (c1 c2 : List ℤ) (i : ℚ) :
    ∀ count, (displayedColors (notification_blink c1 c2 count i)).length = 2 * count := by
  intro count
  induction count with
  | zero => rfl
  | succ k ih =>
      rw [displayedColors_blink_succ]
      simp only [List.length_cons, ih]
      ring

lemma blink_len (c1 c2 : List ℤ) (i : ℚ) :
    ∀ count, (notification_blink c1 c2 count i).length = 4 * count := by
  intro count
  induction count with
  | zero => rfl
  | succ k ih =>
      simp only [notification_blink, List.length_append, ih, List.length_cons,
        List.length_nil]
      ring

lemma blink_disp_get (c1 c2 : List ℤ) (i : ℚ) :
    ∀ count k, k < 2 * count →
      (displayedColors (notification_blink c1 c2 count i))[k]? =
        some (if k % 2 = 0 then c1 else c2) := by
  intro count
  induction count with
  | zero => intro k hk; omega
  | succ m ih =>
      intro k hk
      rw [displayedColors_blink_succ]
      match k with
      | 0 => simp
      | 1 => simp
      | Nat.succ (Nat.succ j) =>
          have hj : j < 2 * m := by omega
          have hmod : (j + 2) % 2 = j % 2 := Nat.add_mod_right j 2
          simpa [List.getElem?_cons_succ, hmod] using ih j hj

lemma blink_odd_sleep (c1 c2 : List ℤ) (i : ℚ) :
    ∀ count j, j < 4 * count → j % 2 = 1 →
      (notification_blink c1 c2 count i)[j]? = some (Event.sleep i) := by
  intro count
  induction count with
  | zero => intro j hj; omega
  | succ m ih =>
      intro j hj hodd
      match j with
      | 0 => omega
      | 1 => simp [notification_blink]
      | 2 => omega
      | 3 => simp [notification_blink]
      | Nat.succ (Nat.succ (Nat.succ (Nat.succ j'))) =>
          have hj' : j' < 4 * m := by omega
          have hodd' : j' % 2 = 1 := by omega
          simpa [notification_blink, List.getElem?_cons_succ] using ih j' hj' hodd'

lemma notification_blink_display_flag (c1 c2 : List ℤ) (i : ℚ) :
    ∀ count rgb ig, Event.display rgb ig ∈ notification_blink c1 c2 count i → ig = false := by
  intro count
  induction count with
  | zero => intro rgb ig h; simp [notification_blink] at h
  | succ m ih =>
      intro rgb ig h
      simp only [notification_blink, List.cons_append, List.nil_append,
        List.mem_cons] at h
      rcases h with h | h | h | h | h
      all_goals first
        | (injection h with h1 h2; exact h2)
        | (injection h)
        | (exact ih rgb ig h)
        | (rcases h with ⟨-, rfl⟩; rfl)

/-- C1: when a pending notification resolves to the setting `n` and the
captured CPU-load color is `mc`, the blinking tick issues exactly
`2 * n.count` display commands, alternating `n.color` (even positions)
with `mc` (odd positions); the trace has `4 * n.count` events and every
odd-indexed event is a sleep of `n.interval` seconds (one after each
display command); `meter_color` is not recomputed — the successor state
carries the captured value unchanged. -/
theorem tick_blink_sequence (persistent : Bool) (settings : List NotificationSetting)
    (st : LoopState) (sample : ℤ) (n : NotificationSetting) (mc : List ℤ)
    (hN : ¬ st.NOTIFY = "")
    (hfind : settings.find? (fun x => st.NOTIFY == x.name) = some n)
    (hmc : st.meter_color = some mc) :
    ∃ evs, tick persistent settings st sample =
        Except.ok (evs, ⟨"", st.cpu_load_cache, st.current_sampling, st.meter_color⟩) ∧
      (displayedColors evs).length = 2 * n.count ∧
      (∀ k, k < 2 * n.count →
        (displayedColors evs)[k]? = some (if k % 2 = 0 then n.color else mc)) ∧
      evs.length = 4 * n.count ∧
      (∀ j, j < evs.length → j % 2 = 1 → evs[j]? = some (Event.sleep n.interval)) := by
  refine ⟨notification_blink n.color mc n.count n.interval, ?_, blink_disp_len _ _ _ _,
    blink_disp_get _ _ _ _, blink_len _ _ _ _, ?_⟩
  · rw [tick, if_neg hN, hfind, hmc]
  · intro j hj hodd
    exact blink_odd_sleep _ _ _ _ j (by rwa [blink_len] at hj) hodd

/-- C1 witness: the blink tick for `Telegram Desktop` with captured load
color `(0,255,0)` issues `2 * 2` display commands and the second one shows
the captured load color. -/
theorem tick_blink_sequence_witness :
    (displayedColors (ticked_events (tick false [telegramSetting]
        ⟨"Telegram Desktop", List.replicate SAMPLES 50, 0, some [0, 255, 0]⟩ 0))).length =
      2 * telegramSetting.count ∧
    (displayedColors (ticked_events (tick false [telegramSetting]
        ⟨"Telegram Desktop", List.replicate SAMPLES 50, 0, some [0, 255, 0]⟩ 0)))[1]? =
      some [0, 255, 0] := by
  obtain ⟨evs, h1, h2, h3, -, -⟩ :=
    tick_blink_sequence false [telegramSetting]
      ⟨"Telegram Desktop", List.replicate SAMPLES 50, 0, some [0, 255, 0]⟩ 0
      telegramSetting [0, 255, 0] (by decide) rfl rfl
  rw [h1]
  exact ⟨h2, h3 1 (by decide)⟩

/-- C2: on a successful tick, every display command of a Monitoring tick
carries `ignore_errors = persistent`, so a `commandFailed` outcome
terminates the process exactly when persistent mode is off; every display
command of a Blinking tick carries `ignore_errors = false`, so a
`commandFailed` outcome terminates the process regardless of the
persistent flag. -/
theorem tick_failure_semantics (persistent : Bool) (settings : List NotificationSetting)
    (st : LoopState) (sample : ℤ) (evs : List Event) (st2 : LoopState)
    (h : tick persistent settings st sample = Except.ok (evs, st2)) :
    (st.NOTIFY = "" → ∀ rgb ig, Event.display rgb ig ∈ evs →
      set_keyboard_color_exits ig DeviceOutcome.commandFailed = !persistent) ∧
    (¬ st.NOTIFY = "" → ∀ rgb ig, Event.display rgb ig ∈ evs →
      set_keyboard_color_exits ig DeviceOutcome.commandFailed = true) := by
  constructor
  · intro hn rgb ig hmem
    rw [tick, if_pos hn] at h
    have hevs : evs =
        [Event.display (get_load_color (cpu_load_avg
            (record st.cpu_load_cache st.current_sampling sample).1)) persistent,
          Event.sleep SAMPLING] :=
      (congrArg ticked_events h).symm
    rw [hevs] at hmem
    simp only [List.mem_cons, List.not_mem_nil, or_false] at hmem
    rcases hmem with hmem | hmem
    · injection hmem with h1 h2
      rw [h2]
      rfl
    · exact absurd hmem (by simp)
  · intro hn rgb ig hmem
    rw [tick, if_neg hn] at h
    cases hf : settings.find? (fun x => st.NOTIFY == x.name) with
    | none =>
        rw [hf] at h
        have hevs : evs = [] := (congrArg ticked_events h).symm
        rw [hevs] at hmem
        exact absurd hmem (by simp)
    | some n =>
        rw [hf] at h
        cases hmc : st.meter_color with
        | none =>
            rw [hmc] at h
            exact Except.noConfusion h
        | some mc =>
            rw [hmc] at h
            have hevs : evs = notification_blink n.color mc n.count n.interval :=
              (congrArg ticked_events h).symm
            rw [hevs] at hmem
            have := notification_blink_display_flag n.color mc n.interval n.count rgb ig hmem
            rw [this]
            rfl

/-- C2 witness: applying the failure-semantics theorem to a concrete
persistent-mode Monitoring tick (commandFailed swallowed) and to a concrete
Blinking tick (commandFailed fatal). -/
theorem tick_failure_semantics_witness :
    set_keyboard_color_exits true DeviceOutcome.commandFailed = false ∧
    set_keyboard_color_exits false DeviceOutcome.commandFailed = true := by
  constructor
  · have h : tick true [] initState 0 = Except.ok
        ([Event.display (get_load_color (cpu_load_avg
            (record (List.replicate SAMPLES 50) 0 0).1)) true, Event.sleep SAMPLING],
          ⟨"", (record (List.replicate SAMPLES 50) 0 0).1,
            (record (List.replicate SAMPLES 50) 0 0).2,
            some (get_load_color (cpu_load_avg (record (List.replicate SAMPLES 50) 0 0).1))⟩) :=
      rfl
    exact (tick_failure_semantics true [] initState 0 _ _ h).1 rfl _ true (List.Mem.head _)
  · have h : tick false [telegramSetting]
        ⟨"Telegram Desktop", List.replicate SAMPLES 50, 0, some [0, 255, 0]⟩ 0 = Except.ok
        (notification_blink [0, 190, 255] [0, 255, 0] 2 0.3,
          ⟨"", List.replicate SAMPLES 50, 0, some [0, 255, 0]⟩) := rfl
    exact (tick_failure_semantics false [telegramSetting] _ 0 _ _ h).2 (by decide)
      [0, 190, 255] false (List.Mem.head _)

/-- C5 counterexample: a pending notification `"Unknown"` that matches no
configured setting is cleared silently, but the tick issues NO display
command at all — the CPU-load color is not redisplayed before returning to
Monitoring, contradicting the claim's "redisplayed once". -/
theorem tick_unmatched_counterexample :
    tick false [telegramSetting] ⟨"Unknown", List.replicate SAMPLES 50, 0, some [0, 255, 0]⟩ 0 =
      Except.ok ([], ⟨"", List.replicate SAMPLES 50, 0, some [0, 255, 0]⟩) ∧
    displayedColors (ticked_events (tick false [telegramSetting]
      ⟨"Unknown", List.replicate SAMPLES 50, 0, some [0, 255, 0]⟩ 0)) = [] :=
  ⟨rfl, rfl⟩

/-- C5 (amended): when the pending name matches no setting, the tick
returns without error, issues no display command at all, clears the
pending cell and leaves the rest of the state unchanged; the CPU-load
color is displayed again only by the following Monitoring tick. -/
theorem tick_unmatched (persistent : Bool) (settings : List NotificationSetting)
    (st : LoopState) (sample : ℤ)
    (hN : ¬ st.NOTIFY = "")
    (hfind : settings.find? (fun x => st.NOTIFY == x.name) = none) :
    tick persistent settings st sample =
      Except.ok ([], ⟨"", st.cpu_load_cache, st.current_sampling, st.meter_color⟩) ∧
    ∀ sample2, displayedColors (ticked_events (tick persistent settings
        ⟨"", st.cpu_load_cache, st.current_sampling, st.meter_color⟩ sample2)) =
      [get_load_color (cpu_load_avg
        ((record st.cpu_load_cache st.current_sampling sample2).1))] := by
  constructor
  · rw [tick, if_neg hN, hfind]
  · intro sample2
    rfl

/-- C5 witness: the amended theorem applied to the unmatched notification
`"Unknown"` against the settings list containing only `Telegram Desktop`. -/
theorem tick_unmatched_witness :
    tick false [telegramSetting]
        ⟨"Unknown", List.replicate SAMPLES 50, 0, some [0, 255, 0]⟩ 0 =
      Except.ok ([], ⟨"", List.replicate SAMPLES 50, 0, some [0, 255, 0]⟩) :=
  (tick_unmatched false [telegramSetting]
    ⟨"Unknown", List.replicate SAMPLES 50, 0, some [0, 255, 0]⟩ 0 (by decide) rfl).1

/-- C6 (code bug): if a notification matching a configured setting is
pending while the loop state still has `initState`'s fields — i.e. before
any Monitoring tick has ever assigned `meter_color` — the blink branch
reads the undefined `meter_color` and the program fails with a NameError
instead of using a defined neutral color. -/
theorem tick_meter_color_uninitialized :
    tick false [telegramSetting]
        ⟨"Telegram Desktop", initState.cpu_load_cache, initState.current_sampling,
          initState.meter_color⟩ 0 =
      Except.error "NameError: name meter_color is not defined" ∧
    initState.meter_color = none :=
  ⟨rfl, rfl⟩

/-- C10: the pending-notification cell is last-writer-wins: writing the
names `"A"` then `"B"` (two `notification_event` deliveries) before any
read leaves exactly `"B"` in the cell — never `"A"` — and each write
replaces the previous value unconditionally (the result does not depend on
the overwritten value). -/
theorem notification_event_last_writer_wins (s0 : String)
    (argsA argsB : List String) (hA : argsA ≠ []) (hB : argsB ≠ [])
    (hA1 : argsA.head hA = "A") (hB1 : argsB.head hB = "B") :
    notification_event argsB hB (notification_event argsA hA s0) = "B" ∧
    notification_event argsB hB (notification_event argsA hA s0) ≠ "A" ∧
    ∀ prev1 prev2 : String,
      notification_event argsB hB prev1 = notification_event argsB hB prev2 := by
  refine ⟨hB1, ?_, fun _ _ => rfl⟩
  show argsB.head hB ≠ "A"
  rw [hB1]
  decide

/-- C10 witness: the cell after delivering messages `["A"]` then `["B"]`
holds `"B"`. -/
theorem notification_event_last_writer_wins_witness :
    notification_event ["B"] (by decide) (notification_event ["A"] (by decide) "") = "B" :=
  (notification_event_last_writer_wins "" ["A"] ["B"] (by decide) (by decide) rfl rfl).1

/-- `k` consecutive recordings of the same sample `v`, starting from cache
and cursor `s` (iterating the monitoring branch's cache update). -/
def recordN (v : ℤ) : ℕ → List ℤ × ℕ → List ℤ × ℕ
  | 0, s => s
  | Nat.succ k, s => recordN v k (record s.1 s.2 v)

lemma record_length (cache : List ℤ) (cur : ℕ) (v : ℤ) :
    ((record cache cur v).1).length = cache.length := by
  simp [record]

lemma recordN_length (v : ℤ) :
    ∀ (k : ℕ) (s : List ℤ × ℕ), ((recordN v k s).1).length = s.1.length := by
  intro k
  induction k with
  | zero => intro s; rfl
  | succ m ih =>
      intro s
      rw [recordN, ih, record_length]

lemma recordN_getElem (v : ℤ) :
    ∀ (k : ℕ) (cache : List ℤ) (cur : ℕ), cur + k ≤ cache.length →
      ∀ i, ((recordN v k (cache, cur)).1)[i]? =
        if cur ≤ i ∧ i < cur + k then some v else cache[i]? := by
  intro k
  induction k with
  | zero =>
      intro cache cur h i
      rw [recordN, if_neg (by omega)]
  | succ m ih =>
      intro cache cur h i
      rw [recordN]
      have hcur : cur < cache.length := by omega
      by_cases hwrap : cur + 1 ≥ (cache.set cur v).length
      · have hlen : (cache.set cur v).length = cache.length := by simp
        have hm : m = 0 := by omega
        subst hm
        have hwrap' : cache.length ≤ cur + 1 := by simpa using hwrap
        have hrec : record cache cur v = (cache.set cur v, 0) := by
          simp [record]
          omega
        rw [hrec, recordN, List.getElem?_set]
        by_cases hic : cur = i
        · subst hic
          rw [if_pos rfl, if_pos hcur, if_pos (by omega)]
        · rw [if_neg hic, if_neg (by omega)]
      · have hrec : record cache cur v = (cache.set cur v, cur + 1) := by
          simp [record] at hwrap ⊢
          omega
        rw [hrec, ih (cache.set cur v) (cur + 1) (by simp; omega) i, List.getElem?_set]
        by_cases h1 : cur + 1 ≤ i ∧ i < cur + 1 + m
        · rw [if_pos h1, if_pos (by omega)]
        · rw [if_neg h1]
          by_cases h2 : cur = i
          · subst h2
            rw [if_pos rfl, if_pos hcur, if_pos (by omega)]
          · rw [if_neg h2, if_neg (by omega)]

lemma recordN_full (cache : List ℤ) (v : ℤ) (h : 0 < cache.length) :
    (recordN v cache.length (cache, 0)).1 = List.replicate cache.length v := by
  apply List.ext_getElem?
  intro i
  rw [recordN_getElem v cache.length cache 0 (by omega) i]
  by_cases hi : i < cache.length
  · rw [if_pos ⟨by omega, by omega⟩]
    simp [List.getElem?_replicate, hi]
  · rw [if_neg (by omega), List.getElem?_eq_none (by omega),
      List.getElem?_eq_none (by simp; omega)]

/-- C7: starting from any pre-fill and cursor 0, recording the sample `v`
exactly `length` consecutive times overwrites every slot, so the cache
becomes constantly `v` and the returned average is exactly `v`; moreover
the cache length never changes, whatever the number of recordings. -/
theorem cpu_load_cache_convergence (cache : List ℤ) (v : ℤ) (h : 0 < cache.length) :
    (recordN v cache.length (cache, 0)).1 = List.replicate cache.length v ∧
    cpu_load_avg (recordN v cache.length (cache, 0)).1 = (v : ℚ) ∧
    ∀ k, ((recordN v k (cache, 0)).1).length = cache.length := by
  have hfull := recordN_full cache v h
  refine ⟨hfull, ?_, fun k => recordN_length v k (cache, 0)⟩
  rw [hfull, cpu_load_avg]
  have hn : (cache.length : ℚ) ≠ 0 := Nat.cast_ne_zero.2 (by omega)
  simp only [List.sum_replicate, List.length_replicate, nsmul_eq_mul]
  push_cast
  field_simp

/-- C7 witness: 25 recordings of the sample 7 into the default pre-fill
(25 slots of 50) produce a cache holding only 7. -/
theorem cpu_load_cache_convergence_witness :
    (recordN 7 (List.replicate 25 (50:ℤ)).length (List.replicate 25 (50:ℤ), 0)).1 =
      List.replicate (List.replicate 25 (50:ℤ)).length 7 :=
  (cpu_load_cache_convergence (List.replicate 25 50) 7 (by decide)).1

/-- The mandatory attributes of each notification setting record. -/
def NOTIFICATION_SETTINGS_MANDATORY_ATTRIBUTES : List String :=
  ["name", "color", "count", "interval"]

/-- Keys assigned into a record's dictionary from its child elements: the
`if/elif` chain stores a key only for the four known tags (element texts,
irrelevant to the presence check, are abstracted away). -/
def settings_object_keys (element_tags : List String) : List String :=
  element_tags.filter (fun tag => NOTIFICATION_SETTINGS_MANDATORY_ATTRIBUTES.contains tag)

/-- Embeds `parse_notification_settings_from_xml` at the granularity of
element tags: each `<notification>` node is given by the list of its child
element tags; after assigning the keys of a node, the first mandatory
attribute not present raises `ValueError("Missing element in notification
settings XML: " + attribute)`, which propagates and aborts the parse. -/
def parse_notification_settings_from_xml :
    List (List String) → Except String (List (List String))
  | [] => Except.ok []
  | node :: rest =>
      let keys := settings_object_keys node
      match NOTIFICATION_SETTINGS_MANDATORY_ATTRIBUTES.find?
          (fun a => !(keys.contains a)) with
      | some a =>
          Except.error ("Missing element in notification settings XML: " ++ a)
      | none =>
          match parse_notification_settings_from_xml rest with
          | Except.ok l => Except.ok (keys :: l)
          | Except.error e => Except.error e

/-- Embeds the `-notify` startup of `__main__`: the settings file is parsed
inside a `try`; on any exception the process prints a diagnostic and calls
`exit()` before the `while True` loop is ever entered. -/
def startup_main_loop_starts (notify : Bool) (nodes : List (List String)) : Bool :=
  if notify then
    match parse_notification_settings_from_xml nodes with
    | Except.ok _ => true
    | Except.error _ => false
  else true

lemma parse_missing_error :
    ∀ nodes : List (List String),
      (∃ node ∈ nodes, ∃ a ∈ NOTIFICATION_SETTINGS_MANDATORY_ATTRIBUTES,
        (settings_object_keys node).contains a = false) →
      ∃ a ∈ NOTIFICATION_SETTINGS_MANDATORY_ATTRIBUTES,
        (∃ node ∈ nodes, (settings_object_keys node).contains a = false) ∧
        parse_notification_settings_from_xml nodes =
          Except.error ("Missing element in notification settings XML: " ++ a) := by
  intro nodes
  induction nodes with
  | nil =>
      intro h
      obtain ⟨node, hmem, -⟩ := h
      exact absurd hmem (List.not_mem_nil _)
  | cons node rest ih =>
      intro h
      cases hf : NOTIFICATION_SETTINGS_MANDATORY_ATTRIBUTES.find?
          (fun a => !((settings_object_keys node).contains a)) with
      | some a =>
          refine ⟨a, List.mem_of_find?_eq_some hf,
            ⟨node, List.mem_cons_self _ _, ?_⟩, ?_⟩
          · have := List.find?_some hf
            simpa using this
          · simp only [parse_notification_settings_from_xml]
            rw [hf]
      | none =>
          obtain ⟨nd, hmem, a, ha, hcont⟩ := h
          rcases List.mem_cons.1 hmem with rfl | hmem'
          · have hall := List.find?_eq_none.1 hf a ha
            simp only [Bool.not_eq_true', Bool.not_not] at hall
            exact absurd hcont hall
          · obtain ⟨a2, ha2, ⟨nd2, hnd2, hc2⟩, hparse⟩ := ih ⟨nd, hmem', a, ha, hcont⟩
            refine ⟨a2, ha2, ⟨nd2, List.mem_cons_of_mem _ hnd2, hc2⟩, ?_⟩
            simp only [parse_notification_settings_from_xml]
            rw [hf, hparse]

/-- C9: if any record of the settings document lacks one of the four
mandatory attributes, loading raises a `ValueError` whose message names a
missing attribute, and with notification monitoring requested the main
loop never starts. -/
theorem settings_missing_field_aborts (nodes : List (List String))
    (h : ∃ node ∈ nodes, ∃ a ∈ NOTIFICATION_SETTINGS_MANDATORY_ATTRIBUTES,
      (settings_object_keys node).contains a = false) :
    (∃ a ∈ NOTIFICATION_SETTINGS_MANDATORY_ATTRIBUTES,
      (∃ node ∈ nodes, (settings_object_keys node).contains a = false) ∧
      parse_notification_settings_from_xml nodes =
        Except.error ("Missing element in notification settings XML: " ++ a)) ∧
    startup_main_loop_starts true nodes = false := by
  obtain ⟨a, hmem, hmiss, hparse⟩ := parse_missing_error nodes h
  refine ⟨⟨a, hmem, hmiss, hparse⟩, ?_⟩
  rw [startup_main_loop_starts, if_pos rfl, hparse]

/-- C9 witness: a record having `name`, `color` and `count` but missing
`interval` prevents the main loop from starting. -/
theorem settings_missing_field_aborts_witness :
    startup_main_loop_starts true [["name", "color", "count"]] = false :=
  (settings_missing_field_aborts [["name", "color", "count"]] (by decide)).2
